import Mathlib

/-!
Shallow embedding of `src/api.ts` of the deepfake-detector client:
the upload helpers (`uploadVideo`, `uploadAudio`), the status query
(`checkTaskStatus`) and the fixed-interval polling loop with cancellation
(`pollTaskStatus`), together with theorems about the claimed properties.

Modelling conventions:
* `fetch` either rejects (network failure) or resolves to a response carrying
  an HTTP status, a reason phrase and a body; `response.json()` either parses
  to a typed value or rejects (empty / invalid-JSON body).
* Every value thrown on the paths modelled here is a JavaScript `Error`
  instance (a `new Error(...)`, a network `TypeError` from `fetch`, or a
  `SyntaxError` from `response.json()`), so the `error instanceof Error`
  tests in the source always take the `Error` branch; the model carries the
  message of each such error.
* Toasts (user-visible notifications) are collected as an explicit output
  list instead of a side effect.
* The polling loop is modelled as a state machine driven by the external
  events that can occur on the JavaScript event loop: an in-flight status
  request settling, a scheduled timer firing, and the cancellation handle
  being invoked.  Observable effects (dispatched network requests and
  callback invocations) are collected in order.
-/

/-- JavaScript `a || b` where `a` is an optional string field read off a
parsed JSON object: `undefined` (absent field) and the empty string are
falsy, every other string is truthy. -/
def jsOr : Option String → String → String
  | some v, fb => if v = "" then fb else v
  | none, fb => fb

/-- The JavaScript `Error` values that can be thrown by this module:
`mk` is a plain `new Error(message)`; `jsonDecodeError` is the
`SyntaxError` thrown by `response.json()` on an empty or invalid-JSON
body; `network` is the `TypeError` with which `fetch` rejects when the
request cannot be dispatched or completed. -/
inductive JsError where
  | mk (message : String)
  | jsonDecodeError (message : String)
  | network (message : String)
deriving DecidableEq, Repr

/-- The `.message` property of the thrown `Error`. -/
def JsError.message : JsError → String
  | JsError.mk m => m
  | JsError.jsonDecodeError m => m
  | JsError.network m => m

/-- Outcome of `await response.json()` for a response whose body, when it is
valid JSON, parses to a value of type `β`. -/
inductive BodyParse (β : Type) where
  | parseFailure (msg : String)
  | parsed (body : β)
deriving DecidableEq, Repr

/-- The parts of a `fetch` `Response` that `src/api.ts` reads: `ok`
(2xx check), `status`, `statusText` and the JSON-parse outcome of the
body. -/
structure HttpResponse (β : Type) where
  ok : Bool
  status : Nat
  statusText : String
  body : BodyParse β
deriving DecidableEq, Repr

/-- Outcome of `await fetch(...)`: rejection with a network error message,
or resolution to a response. -/
inductive FetchOutcome (β : Type) where
  | reject (msg : String)
  | resolve (r : HttpResponse β)
deriving DecidableEq, Repr

/-- `await response.json()` as an `Except`: parse failure is the thrown
`SyntaxError`. -/
def responseJson {β : Type} (r : HttpResponse β) : Except JsError β :=
  match r.body with
  | BodyParse.parsed b => Except.ok b
  | BodyParse.parseFailure m => Except.error (JsError.jsonDecodeError m)

/-- `try { body } catch (e) { handler e }` over exception-carrying
computations. -/
def tryCatchJs {α : Type} (body : Except JsError α)
    (handler : JsError → Except JsError α) : Except JsError α :=
  match body with
  | Except.ok a => Except.ok a
  | Except.error e => handler e

/-- A toast notification as issued by `toast({title, description, variant})`. -/
structure Toast where
  title : String
  description : String
  variant : String
deriving DecidableEq, Repr

/-- The JSON bodies the two upload endpoints return, as far as `src/api.ts`
reads them: on success `{task_id, status}` (the source's `TaskResponse`
interface), on failure `{error}`.  All fields are optional because
`response.json()` performs no validation; the source reads `.error` on the
failure path and returns the parsed object unchanged on the success path. -/
structure UploadBody where
  task_id : Option String
  status : Option String
  error : Option String
deriving DecidableEq, Repr

/-- `"Server error: " + response.status + " " + response.statusText`. -/
def serverErrorMsg {β : Type} (r : HttpResponse β) : String :=
  "Server error: " ++ toString r.status ++ " " ++ r.statusText

/-- The body of `uploadVideo` up to (but not including) its outermost
`try/catch`: the fetch, the non-ok handling with its inner
`try { json; throw } catch (jsonError) { throw }`, and the success-path
`return await response.json()`.  Note that in the source the
`throw new Error(errorData.error || ...)` sits *inside* the `try`, so the
surrounding `catch (jsonError)` also catches it and replaces it with the
synthesized server-error message. -/
def uploadVideoInner (f : FetchOutcome UploadBody) : Except JsError UploadBody :=
  match f with
  | FetchOutcome.reject m => Except.error (JsError.network m)
  | FetchOutcome.resolve r =>
    if r.ok then
      responseJson r
    else
      tryCatchJs
        ((responseJson r).bind fun errorData =>
          Except.error (JsError.mk (jsOr errorData.error (serverErrorMsg r))))
        (fun _jsonError => Except.error (JsError.mk (serverErrorMsg r)))

/-- The body of `uploadAudio` up to its outermost `try/catch`.  Unlike the
video path there is no inner `try/catch` around `response.json()` on the
non-ok branch, so a JSON-parse failure there propagates as the
`SyntaxError` itself. -/
def uploadAudioInner (f : FetchOutcome UploadBody) : Except JsError UploadBody :=
  match f with
  | FetchOutcome.reject m => Except.error (JsError.network m)
  | FetchOutcome.resolve r =>
    if r.ok then
      responseJson r
    else
      (responseJson r).bind fun errorData =>
        Except.error (JsError.mk (jsOr errorData.error "Failed to upload audio"))

/-- `uploadVideo`: the outermost `try/catch` around `uploadVideoInner`; on
any failure it issues a destructive "Upload Error" toast whose description
is the error's message (every throwable here is an `Error` instance, so the
`error instanceof Error` test always yields `error.message`) and re-throws
the same error. -/
def uploadVideo (f : FetchOutcome UploadBody) :
    Except JsError UploadBody × List Toast :=
  match uploadVideoInner f with
  | Except.ok j => (Except.ok j, [])
  | Except.error e =>
    (Except.error e,
     [{ title := "Upload Error", description := e.message, variant := "destructive" }])

/-- `uploadAudio`: the outermost `try/catch` around `uploadAudioInner`, with
the same dual-channel failure reporting as `uploadVideo`. -/
def uploadAudio (f : FetchOutcome UploadBody) :
    Except JsError UploadBody × List Toast :=
  match uploadAudioInner f with
  | Except.ok j => (Except.ok j, [])
  | Except.error e =>
    (Except.error e,
     [{ title := "Upload Error", description := e.message, variant := "destructive" }])

/-- The optional `result` payload of a task status record.  The client never
inspects it (it is passed through to callbacks uninterpreted); `confidence`
is a JSON number modelled as a rational, and the open-ended `features`
record is modelled as an association list with opaque (string) values. -/
structure TaskResult where
  prediction : String
  confidence : Rat
  message : Option String
  spectrogram_url : Option String
  features : List (String × String)
deriving DecidableEq, Repr

/-- The source's `TaskStatus` interface: the status record returned by
`GET /api/task/{task_id}`. -/
structure TaskStatus where
  id : String
  status : String
  type : String
  filename : String
  message : Option String
  result : Option TaskResult
  error : Option String
deriving DecidableEq, Repr

/-- `checkTaskStatus`: fetch the task record; on a non-ok response parse the
body and throw `new Error(errorData.error || 'Failed to check task status')`
(a parse failure on either branch propagates as the `SyntaxError`); its own
`catch` only logs and re-throws, and issues no toast. -/
def checkTaskStatus (f : FetchOutcome TaskStatus) : Except JsError TaskStatus :=
  match f with
  | FetchOutcome.reject m => Except.error (JsError.network m)
  | FetchOutcome.resolve r =>
    if r.ok then
      responseJson r
    else
      (responseJson r).bind fun errorData =>
        Except.error (JsError.mk (jsOr errorData.error "Failed to check task status"))

/-- The stage a polling sequence is at, between event-loop events: a status
request is in flight (`checkStatus` is suspended at its `await`), a
`setTimeout(checkStatus, 1000)` continuation is pending, or the sequence has
stopped issuing work (a return path of `checkStatus` ran with nothing
scheduled). -/
inductive PollPhase where
  | inFlight
  | timerPending
  | stopped
deriving DecidableEq, Repr

/-- The state of one `pollTaskStatus` sequence: the captured `isCancelled`
flag together with the phase of the timer/request chain. -/
structure PollState where
  cancelled : Bool
  phase : PollPhase
deriving DecidableEq, Repr

/-- A callback invocation observed by the caller of `pollTaskStatus`. -/
inductive Callback where
  | progress (st : TaskStatus)
  | complete (st : TaskStatus)
  | errored (e : JsError)
deriving DecidableEq, Repr

/-- An observable effect of the polling sequence: a status request
dispatched to the network, or a callback invocation. -/
inductive Obs where
  | request
  | cb (c : Callback)
deriving DecidableEq, Repr

/-- An external event delivered to the polling sequence by the event loop:
the in-flight `checkTaskStatus` call settles (with the underlying fetch
outcome `f`), the scheduled `setTimeout` fires, or the cancellation handle
returned by `pollTaskStatus` is invoked (`isCancelled = true`). -/
inductive PollEvent where
  | settle (f : FetchOutcome TaskStatus)
  | timer
  | cancel
deriving DecidableEq, Repr

/-- One step of the polling sequence on one event, following `checkStatus`
in the source:
* `cancel` just sets the flag;
* `timer` runs the scheduled `checkStatus`: `if (isCancelled) return;`
  else dispatch the next status request;
* `settle` resumes `checkStatus` after its `await checkTaskStatus(taskId)`:
  on success the status is branched on — `completed` calls `onComplete`,
  `error` calls `onError(new Error(status.error || 'Task failed'))`, any
  other status calls `onProgress` and schedules the next check; note that
  this success path does **not** re-check `isCancelled`.  On failure the
  `catch` block calls `onError` only `if (!isCancelled)` (the caught value
  is always an `Error` instance here, so the `instanceof` wrap is the
  identity).
Events that cannot occur in a phase (a `settle` with no request in flight,
a `timer` with no timer pending) leave the state unchanged. -/
def pollStep (s : PollState) (e : PollEvent) : PollState × List Obs :=
  match e with
  | PollEvent.cancel => ({ s with cancelled := true }, [])
  | PollEvent.timer =>
    match s.phase with
    | PollPhase.timerPending =>
      if s.cancelled then ({ s with phase := PollPhase.stopped }, [])
      else ({ s with phase := PollPhase.inFlight }, [Obs.request])
    | _ => (s, [])
  | PollEvent.settle f =>
    match s.phase with
    | PollPhase.inFlight =>
      match checkTaskStatus f with
      | Except.ok st =>
        if st.status = "completed" then
          ({ s with phase := PollPhase.stopped }, [Obs.cb (Callback.complete st)])
        else if st.status = "error" then
          ({ s with phase := PollPhase.stopped },
           [Obs.cb (Callback.errored (JsError.mk (jsOr st.error "Task failed")))])
        else
          ({ s with phase := PollPhase.timerPending }, [Obs.cb (Callback.progress st)])
      | Except.error err =>
        if s.cancelled then ({ s with phase := PollPhase.stopped }, [])
        else ({ s with phase := PollPhase.stopped }, [Obs.cb (Callback.errored err)])
    | _ => (s, [])

/-- Run the polling sequence over a list of events, accumulating observable
effects in order. -/
def pollRun : PollState → List PollEvent → PollState × List Obs
  | s, [] => (s, [])
  | s, e :: evs =>
    ((pollRun (pollStep s e).1 evs).1,
     (pollStep s e).2 ++ (pollRun (pollStep s e).1 evs).2)

/-- `pollTaskStatus(taskId, ...)`: initializes `isCancelled = false`, calls
`checkStatus()` — whose synchronous prefix sees `isCancelled = false` and
dispatches the first status request before control returns to the caller —
and only then returns the cancellation closure.  The sequence then reacts
to the events `evs`.  The initial `Obs.request` is therefore emitted
unconditionally, before any event (including an immediate `cancel`) can be
delivered. -/
def pollTaskStatus (evs : List PollEvent) : PollState × List Obs :=
  ((pollRun { cancelled := false, phase := PollPhase.inFlight } evs).1,
   Obs.request :: (pollRun { cancelled := false, phase := PollPhase.inFlight } evs).2)

/-- A `checkTaskStatus` fetch that resolves with HTTP 200 and a body parsing
to the record `st`. -/
def okFetch (st : TaskStatus) : FetchOutcome TaskStatus :=
  FetchOutcome.resolve { ok := true, status := 200, statusText := "OK", body := BodyParse.parsed st }

/-- C2 (code_bug evaluation): a video upload answered with HTTP 400 and the
JSON body with error field "bad file" raises an error whose message is
"Server error: 400 Bad Request", not "bad file": the `throw` carrying the
server-supplied message sits inside the `try`, so the `catch (jsonError)`
replaces it with the synthesized message, contradicting the source's own
comment "Try to parse error JSON if possible, otherwise use status text". -/
theorem C2_video_discards_server_message :
    uploadVideo (FetchOutcome.resolve
      { ok := false, status := 400, statusText := "Bad Request",
        body := BodyParse.parsed { task_id := none, status := none, error := some "bad file" } })
    = (Except.error (JsError.mk "Server error: 400 Bad Request"),
       [{ title := "Upload Error", description := "Server error: 400 Bad Request",
          variant := "destructive" }]) := by
  rfl

/-- C3 (counterexample): an audio upload answered with HTTP 404 and an
empty/invalid-JSON body raises the JSON-decode failure itself (the
`SyntaxError` from `response.json()`), whose message does not mention the
status code or reason phrase — so the claim fails for audio uploads. -/
theorem C3_counterexample :
    uploadAudio (FetchOutcome.resolve
      { ok := false, status := 404, statusText := "Not Found",
        body := BodyParse.parseFailure "Unexpected end of JSON input" })
    = (Except.error (JsError.jsonDecodeError "Unexpected end of JSON input"),
       [{ title := "Upload Error", description := "Unexpected end of JSON input",
          variant := "destructive" }]) := by
  rfl

/-- C3 (amended): for a non-2xx response whose body is empty or not valid
JSON, the *video* upload raises a plain `Error` whose message is exactly
"Server error: " followed by the status code and reason phrase — the decode
failure is caught and substituted, never propagated — while the *audio*
upload re-raises the JSON-decode failure itself to the caller. -/
theorem C3_fallback_video_only (r : HttpResponse UploadBody) (m : String)
    (hok : r.ok = false) (hb : r.body = BodyParse.parseFailure m) :
    (uploadVideo (FetchOutcome.resolve r)).1
      = Except.error (JsError.mk ("Server error: " ++ toString r.status ++ " " ++ r.statusText)) ∧
    (uploadAudio (FetchOutcome.resolve r)).1
      = Except.error (JsError.jsonDecodeError m) := by
  simp [uploadVideo, uploadAudio, uploadVideoInner, uploadAudioInner, hok,
    responseJson, hb, tryCatchJs, serverErrorMsg, Except.bind]

/-- C3 witness: the amended theorem evaluated at a concrete 500 response
with an invalid-JSON body. -/
theorem C3_fallback_video_only_witness :
    (uploadVideo (FetchOutcome.resolve
      ({ ok := false, status := 500, statusText := "Internal Server Error",
         body := BodyParse.parseFailure "Unexpected token < in JSON" } : HttpResponse UploadBody))).1
      = Except.error (JsError.mk ("Server error: " ++ toString (500 : Nat) ++ " " ++ "Internal Server Error")) ∧
    (uploadAudio (FetchOutcome.resolve
      ({ ok := false, status := 500, statusText := "Internal Server Error",
         body := BodyParse.parseFailure "Unexpected token < in JSON" } : HttpResponse UploadBody))).1
      = Except.error (JsError.jsonDecodeError "Unexpected token < in JSON") :=
  C3_fallback_video_only
    { ok := false, status := 500, statusText := "Internal Server Error",
      body := BodyParse.parseFailure "Unexpected token < in JSON" }
    "Unexpected token < in JSON" rfl rfl

/-- C8: a video upload answered with a 2xx response whose body parses to a
JSON object returns that object unchanged — in particular its `task_id` and
`status` fields — and issues no toast. -/
theorem C8_upload_success_passthrough (r : HttpResponse UploadBody) (j : UploadBody)
    (hok : r.ok = true) (hb : r.body = BodyParse.parsed j) :
    uploadVideo (FetchOutcome.resolve r) = (Except.ok j, []) := by
  simp [uploadVideo, uploadVideoInner, hok, responseJson, hb]

/-- C8 witness: a concrete 200 response with body with task id "t42" and
status "queued" is returned unchanged with no toast. -/
theorem C8_upload_success_passthrough_witness :
    uploadVideo (FetchOutcome.resolve
      ({ ok := true, status := 200, statusText := "OK",
         body := BodyParse.parsed { task_id := some "t42", status := some "queued", error := none } } : HttpResponse UploadBody))
    = (Except.ok { task_id := some "t42", status := some "queued", error := none }, []) :=
  C8_upload_success_passthrough
    { ok := true, status := 200, statusText := "OK",
      body := BodyParse.parsed { task_id := some "t42", status := some "queued", error := none } }
    { task_id := some "t42", status := some "queued", error := none } rfl rfl

/-- C9: whenever an upload (video or audio) fails — non-2xx response,
undecodable body, or network failure — the very error that is re-raised to
the caller is also reported on the notification channel: exactly one
destructive "Upload Error" toast is issued and its description is that
error's message.  Neither channel is suppressed. -/
theorem C9_dual_channel_reporting (f g : FetchOutcome UploadBody) (e e2 : JsError)
    (hv : uploadVideoInner f = Except.error e)
    (ha : uploadAudioInner g = Except.error e2) :
    uploadVideo f = (Except.error e,
      [{ title := "Upload Error", description := e.message, variant := "destructive" }]) ∧
    uploadAudio g = (Except.error e2,
      [{ title := "Upload Error", description := e2.message, variant := "destructive" }]) := by
  simp [uploadVideo, uploadAudio, hv, ha]

/-- C9 witness: a network failure on both uploads is both toasted and
re-raised. -/
theorem C9_dual_channel_reporting_witness :
    uploadVideo (FetchOutcome.reject "Failed to fetch")
      = (Except.error (JsError.network "Failed to fetch"),
         [{ title := "Upload Error", description := (JsError.network "Failed to fetch").message,
            variant := "destructive" }]) ∧
    uploadAudio (FetchOutcome.reject "Failed to fetch")
      = (Except.error (JsError.network "Failed to fetch"),
         [{ title := "Upload Error", description := (JsError.network "Failed to fetch").message,
            variant := "destructive" }]) :=
  C9_dual_channel_reporting (FetchOutcome.reject "Failed to fetch")
    (FetchOutcome.reject "Failed to fetch")
    (JsError.network "Failed to fetch") (JsError.network "Failed to fetch") rfl rfl

/-- The callback `checkStatus` fires when its awaited status query resolves
successfully with record `st`: the three-way branch on `st.status`. -/
def resolveCallback (st : TaskStatus) : Callback :=
  if st.status = "completed" then Callback.complete st
  else if st.status = "error" then
    Callback.errored (JsError.mk (jsOr st.error "Task failed"))
  else Callback.progress st

theorem pollRun_append (s : PollState) (a b : List PollEvent) :
    pollRun s (a ++ b)
      = ((pollRun (pollRun s a).1 b).1,
         (pollRun s a).2 ++ (pollRun (pollRun s a).1 b).2) := by
  induction a generalizing s with
  | nil => simp [pollRun]
  | cons e evs ih => simp [pollRun, ih]

theorem pollStep_cancelled (s : PollState) (e : PollEvent) (h : s.cancelled = true) :
    ((pollStep s e).1).cancelled = true := by
  cases e with
  | cancel => simp [pollStep]
  | timer => cases hp : s.phase <;> simp [pollStep, hp, h]
  | settle f =>
    cases hp : s.phase with
    | inFlight =>
      cases hcf : checkTaskStatus f with
      | ok st =>
        by_cases h1 : st.status = "completed" <;>
          by_cases h2 : st.status = "error" <;>
            simp [pollStep, hp, hcf, h1, h2, h]
      | error err => simp [pollStep, hp, hcf, h]
    | timerPending => simp [pollStep, hp, h]
    | stopped => simp [pollStep, hp, h]

theorem pollRun_cancelled (s : PollState) (evs : List PollEvent) (h : s.cancelled = true) :
    ((pollRun s evs).1).cancelled = true := by
  induction evs generalizing s with
  | nil => simpa [pollRun] using h
  | cons e evs ih =>
    simpa [pollRun] using ih (pollStep s e).1 (pollStep_cancelled s e h)

/-- Once the flag is set and no status request is in flight, nothing
observable ever happens again: every scheduled check returns at its
`if (isCancelled) return;` guard. -/
theorem pollRun_quiet (s : PollState) (evs : List PollEvent)
    (hc : s.cancelled = true) (hp : s.phase ≠ PollPhase.inFlight) :
    (pollRun s evs).2 = [] := by
  induction evs generalizing s with
  | nil => rfl
  | cons e evs ih =>
    cases e with
    | cancel =>
      simpa [pollRun, pollStep] using ih { s with cancelled := true } rfl hp
    | timer =>
      cases hph : s.phase with
      | inFlight => exact absurd hph hp
      | timerPending =>
        simpa [pollRun, pollStep, hph, hc] using
          ih { s with phase := PollPhase.stopped } hc (by simp)
      | stopped =>
        simpa [pollRun, pollStep, hph] using ih s hc hp
    | settle f =>
      cases hph : s.phase with
      | inFlight => exact absurd hph hp
      | timerPending =>
        simpa [pollRun, pollStep, hph] using ih s hc hp
      | stopped =>
        simpa [pollRun, pollStep, hph] using ih s hc hp

/-- Once `checkStatus` has returned without scheduling anything (phase
`stopped`), no event can make the sequence observable again, cancelled or
not. -/
theorem pollRun_stopped (s : PollState) (evs : List PollEvent)
    (hp : s.phase = PollPhase.stopped) :
    (pollRun s evs).2 = [] := by
  induction evs generalizing s with
  | nil => rfl
  | cons e evs ih =>
    cases e with
    | cancel =>
      simpa [pollRun, pollStep] using ih { s with cancelled := true } hp
    | timer =>
      simpa [pollRun, pollStep, hp] using ih s hp
    | settle f =>
      simpa [pollRun, pollStep, hp] using ih s hp

theorem pollStep_cancel_idem (s : PollState) (h : s.cancelled = true) :
    pollStep s PollEvent.cancel = (s, []) := by
  cases s with
  | mk c p =>
    simp only [PollState.cancelled] at h
    subst h
    rfl

theorem pollRun_cancel_cons (s : PollState) (evs : List PollEvent)
    (h : s.cancelled = true) :
    pollRun s (PollEvent.cancel :: evs) = pollRun s evs := by
  simp [pollRun, pollStep_cancel_idem s h]

theorem pollRun_after_cancel (s : PollState) (evs : List PollEvent) :
    ((pollRun s (PollEvent.cancel :: evs)).1).cancelled = true := by
  simpa [pollRun, pollStep] using
    pollRun_cancelled { s with cancelled := true } evs rfl

/-- On a successful settle of the in-flight query, the emitted callback is
`resolveCallback`, the flag is untouched, and no request remains in
flight. -/
theorem pollStep_settle_ok (s : PollState) (f : FetchOutcome TaskStatus) (st : TaskStatus)
    (hs : s.phase = PollPhase.inFlight) (hcf : checkTaskStatus f = Except.ok st) :
    (pollStep s (PollEvent.settle f)).2 = [Obs.cb (resolveCallback st)] ∧
    ((pollStep s (PollEvent.settle f)).1).cancelled = s.cancelled ∧
    ((pollStep s (PollEvent.settle f)).1).phase ≠ PollPhase.inFlight := by
  by_cases h1 : st.status = "completed"
  · simp [pollStep, hs, hcf, resolveCallback, h1]
  · by_cases h2 : st.status = "error" <;>
      simp [pollStep, hs, hcf, resolveCallback, h1, h2]

/-- With the flag set and a request in flight, the rest of the run emits
either nothing (the request rejects, or never settles) or exactly the one
callback of the request's successful resolution. -/
theorem pollRun_cancelled_inFlight (evs : List PollEvent) :
    (pollRun { cancelled := true, phase := PollPhase.inFlight } evs).2 = [] ∨
    ∃ f st, PollEvent.settle f ∈ evs ∧ checkTaskStatus f = Except.ok st ∧
      (pollRun { cancelled := true, phase := PollPhase.inFlight } evs).2
        = [Obs.cb (resolveCallback st)] := by
  induction evs with
  | nil => left; rfl
  | cons e evs ih =>
    cases e with
    | cancel =>
      have hstep : pollStep { cancelled := true, phase := PollPhase.inFlight } PollEvent.cancel
          = ({ cancelled := true, phase := PollPhase.inFlight }, []) := rfl
      rcases ih with h | ⟨f, st, hmem, hok, hobs⟩
      · left; simp [pollRun, hstep, h]
      · exact Or.inr ⟨f, st, List.mem_cons_of_mem _ hmem, hok, by simp [pollRun, hstep, hobs]⟩
    | timer =>
      have hstep : pollStep { cancelled := true, phase := PollPhase.inFlight } PollEvent.timer
          = ({ cancelled := true, phase := PollPhase.inFlight }, []) := rfl
      rcases ih with h | ⟨f, st, hmem, hok, hobs⟩
      · left; simp [pollRun, hstep, h]
      · exact Or.inr ⟨f, st, List.mem_cons_of_mem _ hmem, hok, by simp [pollRun, hstep, hobs]⟩
    | settle f =>
      cases hcf : checkTaskStatus f with
      | error err =>
        left
        have hstep : pollStep { cancelled := true, phase := PollPhase.inFlight } (PollEvent.settle f)
            = ({ cancelled := true, phase := PollPhase.stopped }, []) := by
          simp [pollStep, hcf]
        simp [pollRun, hstep, pollRun_stopped]
      | ok st =>
        obtain ⟨hobs, hcanc, hph⟩ :=
          pollStep_settle_ok { cancelled := true, phase := PollPhase.inFlight } f st rfl hcf
        refine Or.inr ⟨f, st, List.mem_cons_self _ _, hcf, ?_⟩
        simp [pollRun, hobs,
          pollRun_quiet (pollStep { cancelled := true, phase := PollPhase.inFlight } (PollEvent.settle f)).1
            evs (by simpa using hcanc) hph]

/-- A concrete non-terminal status record. -/
def queuedSample : TaskStatus :=
  { id := "t1", status := "queued", type := "video", filename := "clip.mp4",
    message := none, result := none, error := none }

/-- A concrete non-terminal status record. -/
def runningSample : TaskStatus :=
  { id := "t1", status := "running", type := "video", filename := "clip.mp4",
    message := some "analyzing frames", result := none, error := none }

/-- A concrete terminal `completed` record with a result payload. -/
def completedSample : TaskStatus :=
  { id := "t1", status := "completed", type := "video", filename := "clip.mp4",
    message := none,
    result := some { prediction := "REAL", confidence := 97 / 100,
                     message := none, spectrogram_url := none, features := [] },
    error := none }

/-- A concrete terminal `error` record with a non-empty error message. -/
def failedSample : TaskStatus :=
  { id := "t2", status := "error", type := "audio", filename := "voice.wav",
    message := none, result := none, error := some "decode failure" }

/-- C1 (counterexample): the cancellation handle is invoked immediately
after `pollTaskStatus` returns, while the first status request is still in
flight; when that request later resolves with a `completed` record, the
completion callback still fires — after cancellation — because the success
path of `checkStatus` never re-checks `isCancelled`. -/
theorem C1_counterexample :
    (pollTaskStatus [PollEvent.cancel, PollEvent.settle (okFetch completedSample)]).2
      = [Obs.request, Obs.cb (Callback.complete completedSample)] := by
  rfl

/-- C1 (amended): once the cancellation handle has been invoked, no further
status request is ever dispatched, and the only callback that can still
fire is the single one produced when a status query already in flight at
cancellation time resolves successfully; a rejected in-flight query and
every check scheduled afterwards fire no callback at all. -/
theorem C1_no_callback_after_cancel (s : PollState) (evs : List PollEvent)
    (hc : s.cancelled = true) :
    Obs.request ∉ (pollRun s evs).2 ∧
    ((pollRun s evs).2 = [] ∨
      (s.phase = PollPhase.inFlight ∧ ∃ f st, PollEvent.settle f ∈ evs ∧
        checkTaskStatus f = Except.ok st ∧
        (pollRun s evs).2 = [Obs.cb (resolveCallback st)])) := by
  have hmain : (pollRun s evs).2 = [] ∨
      (s.phase = PollPhase.inFlight ∧ ∃ f st, PollEvent.settle f ∈ evs ∧
        checkTaskStatus f = Except.ok st ∧
        (pollRun s evs).2 = [Obs.cb (resolveCallback st)]) := by
    cases hp : s.phase with
    | inFlight =>
      have hs : s = { cancelled := true, phase := PollPhase.inFlight } := by
        cases s
        simp_all
      subst hs
      rcases pollRun_cancelled_inFlight evs with h | ⟨f, st, hm, hok, hobs⟩
      · exact Or.inl h
      · exact Or.inr ⟨rfl, f, st, hm, hok, hobs⟩
    | timerPending => exact Or.inl (pollRun_quiet s evs hc (by simp [hp]))
    | stopped => exact Or.inl (pollRun_quiet s evs hc (by simp [hp]))
  refine ⟨?_, hmain⟩
  rcases hmain with h | ⟨_, f, st, _, _, hobs⟩
  · simp [h]
  · simp [hobs]

/-- C1 witness: the amended theorem at the cancelled in-flight state with
two later timer events. -/
theorem C1_no_callback_after_cancel_witness :
    Obs.request ∉ (pollRun { cancelled := true, phase := PollPhase.inFlight }
        [PollEvent.timer, PollEvent.timer]).2 ∧
    ((pollRun { cancelled := true, phase := PollPhase.inFlight }
        [PollEvent.timer, PollEvent.timer]).2 = [] ∨
      (({ cancelled := true, phase := PollPhase.inFlight } : PollState).phase = PollPhase.inFlight ∧
        ∃ f st, PollEvent.settle f ∈ [PollEvent.timer, PollEvent.timer] ∧
          checkTaskStatus f = Except.ok st ∧
          (pollRun { cancelled := true, phase := PollPhase.inFlight }
              [PollEvent.timer, PollEvent.timer]).2
            = [Obs.cb (resolveCallback st)])) :=
  C1_no_callback_after_cancel { cancelled := true, phase := PollPhase.inFlight }
    [PollEvent.timer, PollEvent.timer] rfl

/-- C4: when successive polls return `queued`, `running`, `completed`, the
observable trace is exactly three dispatched requests, a progress callback
for the queued record, a progress callback for the running record, and one
completion callback with the completed record — and whatever events come
afterwards, no further request or callback occurs. -/
theorem C4_three_poll_trace (q r c : TaskStatus)
    (hq : q.status = "queued") (hr : r.status = "running") (hc : c.status = "completed")
    (evs : List PollEvent) :
    (pollTaskStatus ([PollEvent.settle (okFetch q), PollEvent.timer,
        PollEvent.settle (okFetch r), PollEvent.timer,
        PollEvent.settle (okFetch c)] ++ evs)).2
      = [Obs.request, Obs.cb (Callback.progress q), Obs.request,
         Obs.cb (Callback.progress r), Obs.request, Obs.cb (Callback.complete c)] := by
  unfold pollTaskStatus
  rw [pollRun_append]
  simp [pollRun, pollStep, checkTaskStatus, okFetch, responseJson, hq, hr, hc,
    pollRun_stopped]

/-- C4 witness: the three-poll trace at concrete records, with a stray
timer event afterwards. -/
theorem C4_three_poll_trace_witness :
    (pollTaskStatus ([PollEvent.settle (okFetch queuedSample), PollEvent.timer,
        PollEvent.settle (okFetch runningSample), PollEvent.timer,
        PollEvent.settle (okFetch completedSample)] ++ [PollEvent.timer])).2
      = [Obs.request, Obs.cb (Callback.progress queuedSample), Obs.request,
         Obs.cb (Callback.progress runningSample), Obs.request,
         Obs.cb (Callback.complete completedSample)] :=
  C4_three_poll_trace queuedSample runningSample completedSample rfl rfl rfl
    [PollEvent.timer]

/-- C5 (counterexample): for a status record whose `error` field is present
but the empty string, the error callback message is the generic
"Task failed" (the JavaScript `||` treats `""` as falsy), not the record's
error field as the claim states. -/
theorem C5_counterexample :
    ({ id := "t9", status := "error", type := "audio", filename := "voice.wav",
       message := none, result := none, error := some "" } : TaskStatus).error = some "" ∧
    (pollTaskStatus [PollEvent.settle (okFetch
        { id := "t9", status := "error", type := "audio", filename := "voice.wav",
          message := none, result := none, error := some "" })]).2
      = [Obs.request, Obs.cb (Callback.errored (JsError.mk "Task failed"))] ∧
    ("Task failed" : String) ≠ "" := by
  exact ⟨rfl, rfl, by decide⟩

/-- C5 (amended): when a poll returns a record with status `error`, the
error callback fires exactly once, with message equal to the record's
`error` field when that field is present and non-empty and the generic
"Task failed" otherwise, and no further status request is dispatched no
matter what events follow. -/
theorem C5_error_record_stops (st : TaskStatus) (h : st.status = "error")
    (evs : List PollEvent) :
    (pollTaskStatus (PollEvent.settle (okFetch st) :: evs)).2
      = [Obs.request, Obs.cb (Callback.errored (JsError.mk (jsOr st.error "Task failed")))] := by
  unfold pollTaskStatus
  have : PollEvent.settle (okFetch st) :: evs = [PollEvent.settle (okFetch st)] ++ evs := rfl
  rw [this, pollRun_append]
  simp [pollRun, pollStep, checkTaskStatus, okFetch, responseJson, h, pollRun_stopped]

/-- C5 witness: the amended theorem at a concrete failed record carrying a
non-empty message, with a stray timer afterwards. -/
theorem C5_error_record_stops_witness :
    (pollTaskStatus (PollEvent.settle (okFetch failedSample) :: [PollEvent.timer])).2
      = [Obs.request,
         Obs.cb (Callback.errored (JsError.mk (jsOr failedSample.error "Task failed")))] :=
  C5_error_record_stops failedSample rfl [PollEvent.timer]

/-- C6: if cancellation happens after a first poll has come back
non-terminal (its progress callback fired and the next check was scheduled)
but before that scheduled check runs, the observable trace stays at the one
request and the one progress callback forever: no later event produces a
callback or a network request. -/
theorem C6_cancel_between_polls (st : TaskStatus)
    (h1 : st.status ≠ "completed") (h2 : st.status ≠ "error")
    (evs : List PollEvent) :
    (pollTaskStatus (PollEvent.settle (okFetch st) :: PollEvent.cancel :: evs)).2
      = [Obs.request, Obs.cb (Callback.progress st)] := by
  unfold pollTaskStatus
  have : PollEvent.settle (okFetch st) :: PollEvent.cancel :: evs
      = [PollEvent.settle (okFetch st), PollEvent.cancel] ++ evs := rfl
  rw [this, pollRun_append]
  simp [pollRun, pollStep, checkTaskStatus, okFetch, responseJson, h1, h2,
    pollRun_quiet]

/-- C6 witness: cancel after a queued poll; a later timer and even a later
completed response produce nothing. -/
theorem C6_cancel_between_polls_witness :
    (pollTaskStatus (PollEvent.settle (okFetch queuedSample) :: PollEvent.cancel ::
        [PollEvent.timer, PollEvent.settle (okFetch completedSample)])).2
      = [Obs.request, Obs.cb (Callback.progress queuedSample)] :=
  C6_cancel_between_polls queuedSample (by decide) (by decide)
    [PollEvent.timer, PollEvent.settle (okFetch completedSample)]

/-- A `cancel` event delivered when the flag is already set after the
events `a` changes neither the state nor the observable trace. -/
theorem pollRun_second_cancel (s : PollState) (a b : List PollEvent)
    (h : ((pollRun s a).1).cancelled = true) :
    pollRun s (a ++ PollEvent.cancel :: b) = pollRun s (a ++ b) := by
  rw [pollRun_append, pollRun_append, pollRun_cancel_cons _ b h]

/-- C7: the cancellation handle only ever executes `isCancelled = true`, so
a second invocation — at any later point of the event sequence — leaves
both the final state and the full observable trace identical to invoking it
once. -/
theorem C7_cancel_idempotent (evs1 evs2 evs3 : List PollEvent) :
    pollTaskStatus (evs1 ++ PollEvent.cancel :: evs2 ++ PollEvent.cancel :: evs3)
      = pollTaskStatus (evs1 ++ PollEvent.cancel :: evs2 ++ evs3) := by
  have hc : ((pollRun { cancelled := false, phase := PollPhase.inFlight }
      (evs1 ++ PollEvent.cancel :: evs2)).1).cancelled = true := by
    rw [pollRun_append]
    exact pollRun_after_cancel _ evs2
  unfold pollTaskStatus
  rw [pollRun_second_cancel _ _ _ hc]

/-- C10: the first status request is dispatched synchronously inside
`pollTaskStatus`, before the cancellation handle is handed to the caller:
whatever events follow — in particular an immediate cancellation — the
observable trace begins with a dispatched request. -/
theorem C10_first_request_always (evs : List PollEvent) :
    (pollTaskStatus evs).2.head? = some Obs.request ∧
    Obs.request ∈ (pollTaskStatus (PollEvent.cancel :: evs)).2 := by
  exact ⟨rfl, by simp [pollTaskStatus]⟩
